import Mathlib

/-!
Verification of `@studio/json-request` (src/lib/request.js) against its
natural-language specification.

The development shallowly embeds the parts of `lib/request.js` that the
claims are about:

* the option normalizer (lines 261-318): protocol resolution, the shallow
  `copy` of the caller options, extraction of the out-of-band keys
  (`timeout`, `expect`, `log`), and the JSON-payload header computation.
  JavaScript objects are modelled as association lists of `JsVal`s living
  in an explicit heap, so that the "never mutates the caller's object"
  frame claims are about a real store and not vacuous.
* the response classifier, redirect branch and body collector
  (lines 322-419), modelled as pure functions on the response data.
* the callback single-fire discipline (timeout handler lines 421-430,
  request error handler lines 442-453, and the unconditional callback
  calls inside the response handler), modelled as a small event machine
  `step` over `HopState`, where `cbArmed` is the `callback` variable being
  non-null and `fired` counts the callback invocations.

`JSON.parse` and `JSON.stringify` are Node built-ins, external to the
repository; they enter the model as an abstract `parse` function argument
and as the already-encoded payload string respectively.
-/

namespace StudioJsonRequest

/-- JavaScript values, restricted to the shapes the option objects of
`lib/request.js` actually hold: strings, (non-negative integral) numbers,
booleans, arrays of numbers (the `expect` option), references to other
objects (the `headers` option) and the absent/null values. -/
inductive JsVal where
  | vundef
  | vnull
  | vbool (b : Bool)
  | vnum (n : Nat)
  | vstr (s : String)
  | varr (l : List Nat)
  | vref (r : Nat)
deriving DecidableEq, Repr

/-- JavaScript truthiness for `JsVal` (`undefined`, `null`, `false`, `0`
and `""` are falsy; every array and object reference is truthy). -/
def truthy : JsVal → Bool
  | .vundef => false
  | .vnull => false
  | .vbool b => b
  | .vnum n => n != 0
  | .vstr s => s != ""
  | .varr _ => true
  | .vref _ => true

/-- A JavaScript object: its own enumerable properties in insertion order.
Keys are unique by construction of the operations below. -/
abbrev JsObj := List (String × JsVal)

/-- Property read `o[k]`; absent properties read as `undefined`. -/
def getF : JsObj → String → JsVal
  | [], _ => .vundef
  | (k', v') :: rest, k => if k' = k then v' else getF rest k

/-- Property write `o[k] = v`: overwrites the existing property in place,
or appends a new one. -/
def setF : JsObj → String → JsVal → JsObj
  | [], k, v => [(k, v)]
  | (k', v') :: rest, k, v =>
      if k' = k then (k, v) :: rest else (k', v') :: setF rest k v

/-- Property removal `delete o[k]`. -/
def delF : JsObj → String → JsObj
  | [], _ => []
  | (k', v') :: rest, k =>
      if k' = k then delF rest k else (k', v') :: delF rest k

/-- The `copy` helper of `lib/request.js` (lines 251-259): a fresh object
with the same own keys and values.  As an association-list value the copy
is identical to the original; its freshness is modelled by the normalizer
operating on this value outside the heap, so writes to the copy can never
reach the heap objects the caller holds references to. -/
def jsCopy (o : JsObj) : JsObj := o

/-- The object store.  Allocation appends at the end, so references are
indices and existing objects are never moved. -/
abbrev Heap := List JsObj

/-- Dereference; a dangling reference reads as the empty object. -/
def Heap.getObj (h : Heap) (r : Nat) : JsObj := (h[r]?).getD []

/-- Allocate a fresh object, returning the new heap and the reference. -/
def Heap.alloc (h : Heap) (o : JsObj) : Heap × Nat := (h ++ [o], h.length)

/-! ## Errors

`lib/request.js` attaches ad-hoc fields to `Error` objects; the model is a
structure holding exactly the fields the code sets: `message`, `code`, the
`statusCode` added by `expectError` (lines 242-249), and the `cause` set
by the request/response failure wrappers (lines 377-384, 442-453). -/

structure JErr where
  message : String
  code : String
  statusCode : Option Nat
  cause : Option String
deriving DecidableEq, Repr

/-- `expectError` (lines 242-249). -/
def expectError (expectS : String) (status : Nat) : JErr :=
  { message := "Expected response statusCode to be " ++ expectS
      ++ ", but was " ++ toString status
    code := "E_EXPECT"
    statusCode := some status
    cause := none }

/-- The timeout error built in the timer handler (lines 424-425). -/
def timeoutError : JErr :=
  { message := "Request timeout", code := "E_TIMEOUT"
    statusCode := none, cause := none }

/-- The wrapper built in the `req.on('error')` handler (lines 443-445):
`new Error('Request failure')` with `e.code = 'E_ERROR'` and the
underlying error as `e.cause`. -/
def requestFailure (cause : String) : JErr :=
  { message := "Request failure", code := "E_ERROR"
    statusCode := none, cause := some cause }

/-- The wrapper built in the `res.on('error')` handler (lines 378-380). -/
def responseFailure (cause : String) : JErr :=
  { message := "Response failure", code := "E_ERROR"
    statusCode := none, cause := some cause }

/-! ## Response classification (lines 331-342) -/

/-- The extracted `expect` variable: a number or an array of numbers.
Absence (or a falsy value, which the extraction at lines 281-285 skips)
is `Option.none` at the use sites. -/
inductive Expectation where
  | scalar (n : Nat)
  | arr (l : List Nat)
deriving DecidableEq, Repr

/-- `expect.join(', ')` for the set phrasing of the error message. -/
def joinNums (l : List Nat) : String :=
  String.intercalate ", " (l.map toString)

/-- Status classification (lines 331-342): scalar expectation demands
equality, array expectation demands membership (`indexOf !== -1`), no
expectation demands a 2xx status.  Returns the `expectError` on
mismatch, `none` on pass. -/
def classify (expect : Option Expectation) (status : Nat) : Option JErr :=
  match expect with
  | some (.scalar n) =>
      if status ≠ n then some (expectError (toString n) status) else none
  | some (.arr l) =>
      if status ∈ l then none
      else some (expectError ("one of [" ++ joinNums l ++ "]") status)
  | none =>
      if status < 200 ∨ status > 299 then some (expectError "2xx" status)
      else none

/-! ## Redirect branch (lines 357-376) -/

/-- The expectation carried into the recursive `fetch` call of the
redirect branch.  Lines 363-368 copy every own key of the original
options (including a scalar or absent `expect`) into the parsed redirect
target; lines 369-373 then overwrite `expect` only when the original
expectation is an array: `302` is filtered out and a single remaining
element is collapsed to a scalar. -/
def pruneExpect : Option Expectation → Option Expectation
  | some (.arr l) =>
      let r := l.filter (fun s => s ≠ 302)
      some (if r.length = 1 then .scalar (r.headD 0) else .arr r)
  | e => e

/-! ## Body collector and parser (lines 395-418) -/

/-- Truthiness of `res.headers.location` / similar optional strings. -/
def truthyStr : Option String → Bool
  | none => false
  | some s => s != ""

/-- `type.split(';')[0]`: the prefix of the string before its first
`;` (the whole string when there is none), dropping any parameter
suffix such as a charset. -/
def firstSeg (t : String) : String :=
  String.mk (t.toList.takeWhile (fun c => c != ';'))

/-- The content-type test of line 404:
`type && type.split(';')[0] === 'application/json'`. -/
def ctypeIsJson : Option String → Bool
  | none => false
  | some t => t != "" && firstSeg t == "application/json"

/-- The second callback argument: `null`, the raw body text, the parsed
JSON value, or (in stream mode) the response object itself. -/
inductive RData (α : Type) where
  | null
  | raw (s : String)
  | json (v : α)
  | resHandle
deriving DecidableEq, Repr

/-- The `res.on('end')` handler of the buffering path (lines 400-418):
parse the body as JSON when it is non-empty and the content type (with
any `;`-suffix stripped) is `application/json`; on parse failure tag the
error `E_JSON` and hand back the raw body; otherwise the data stays
`null`.  `parse` stands for the external `JSON.parse`. -/
def bodyEnd {α : Type} (parse : String → Except String α)
    (ctype : Option String) (body : String) : Option JErr × RData α :=
  if body ≠ "" ∧ ctypeIsJson ctype = true then
    match parse body with
    | .ok v => (none, .json v)
    | .error m =>
        (some { message := m, code := "E_JSON", statusCode := none
                cause := none },
         .raw body)
  else (none, .null)

/-- Terminal outcome of the response handler (lines 322-419) for one
delivered response. -/
inductive RespOutcome (α : Type) where
  /-- Classification failed: the body is drained, then
  `callback(err, null, res)` fires (lines 343-356). -/
  | fail (e : JErr) (body : String)
  /-- The redirect branch (lines 357-376): no callback call in this hop;
  one recursive `fetch(redirect_opts, null, callback)`. -/
  | redirect (location : String) (expect2 : Option Expectation)
  /-- Stream mode (lines 385-393): `callback(null, res)`. -/
  | stream
  /-- Buffered completion (lines 400-418): `callback(e, d, res)`. -/
  | done (e : Option JErr) (d : RData α)
deriving DecidableEq, Repr

/-- The response handler (lines 322-419), as a function of the response
status, `location` header, content type and fully collected body: first
the status classification, then the redirect check
(`status === 302 && res.headers.location`), then the stream handoff,
then the buffering path. -/
def handleResponse {α : Type} (parse : String → Except String α)
    (expect : Option Expectation) (stream : Bool) (status : Nat)
    (location : Option String) (ctype : Option String) (body : String) :
    RespOutcome α :=
  match classify expect status with
  | some e => .fail e body
  | none =>
      if status = 302 ∧ truthyStr location = true then
        .redirect (location.getD "") (pruneExpect expect)
      else if stream then .stream
      else
        let r := bodyEnd parse ctype body
        .done r.1 r.2

/-- The callback call an outcome produces in its own hop, as
`(error, data)`; the response handle is additionally passed on every
response-side call.  The redirect outcome produces no call. -/
def cbOfOutcome {α : Type} : RespOutcome α → Option (Option JErr × RData α)
  | .fail e _ => some (some e, .null)
  | .redirect _ _ => none
  | .stream => some (none, .resHandle)
  | .done e d => some (e, d)

/-- The recursive `fetch` invocation an outcome spawns: the redirect
branch calls `fetch(redirect_opts, null, callback)` exactly once (line
374), with the resolved location, the carried expectation and no
payload; every other outcome spawns nothing. -/
def redirectSpawn {α : Type} :
    RespOutcome α → Option (String × Option Expectation)
  | .redirect l e2 => some (l, e2)
  | _ => none

/-! ## Option normalizer (lines 261-318)

The normalizer runs before any network I/O.  The caller's options object
lives in the heap at `optRef` and may hold a reference to a headers
object; the normalizer reads them, works on local copies, and only ever
*allocates* into the heap, mirroring the copy discipline of the source
(`copy(options)` at line 272, `copy(opts.headers)` at line 296). -/

/-- The payload argument of `fetch`, classified as the source does with
`data && !data.pipe` (lines 293, 432-440): absent/`null`, a stream
(piped, untouched), or a JSON-encodable value — represented by its
`JSON.stringify` image, since the encoder is a Node built-in. -/
inductive Payload where
  | noBody
  | stream
  | json (s : String)
deriving DecidableEq, Repr

/-- Protocol resolution (lines 266-270):
`options.protocol || 'https:'`, then the `PROTOCOLS` table lookup, and a
synchronous `throw` when the lookup fails.  A truthy non-string protocol
also throws (it cannot be a key of `PROTOCOLS`); its message is left
generic since the claims only concern string and absent protocols. -/
def resolveProtocol (options : JsObj) : Except String String :=
  match getF options "protocol" with
  | .vstr s =>
      if s = "" then .ok "https:"
      else if s = "http:" ∨ s = "https:" then .ok s
      else .error ("Unsupported protocol \"" ++ s ++ "\"")
  | v =>
      if truthy v then .error "Unsupported protocol"
      else .ok "https:"

/-- `if (opts.k) { x = opts.k; delete opts.k }` (lines 275-291): returns
the possibly shrunk object and the extracted value (`undefined` when the
property is falsy and therefore left alone). -/
def extractOpt (opts : JsObj) (k : String) : JsObj × JsVal :=
  let v := getF opts k
  if truthy v then (delF opts k, v) else (opts, .vundef)

/-- Lines 272-291: `copy(options)`, `delete opts.protocol`, and the
extraction of `timeout`, `expect` and `log`.  Returns the stripped
options together with the extracted `timeout` and `expect` values. -/
def stripOpts (options : JsObj) : JsObj × JsVal × JsVal :=
  let opts0 := delF (jsCopy options) "protocol"
  let et := extractOpt opts0 "timeout"
  let ee := extractOpt et.1 "expect"
  let el := extractOpt ee.1 "log"
  (el.1, et.2, ee.2)

/-- The JSON-payload branch (lines 293-304): take a shallow copy of the
caller's headers object (or a fresh empty object), always set
`Content-Length` to the UTF-8 byte length of the encoded payload, set
`Content-Type` to `application/json` only when the copy has no truthy
`Content-Type`.  This is the headers object the request is issued
with. -/
def mkJsonHeaders (h : Heap) (opts : JsObj) (s : String) : JsObj :=
  let headers0 : JsObj :=
    match getF opts "headers" with
    | .vref r => jsCopy (h.getObj r)
    | _ => []
  let headers1 := setF headers0 "Content-Length" (.vnum s.utf8ByteSize)
  if truthy (getF headers1 "Content-Type") then headers1
  else setF headers1 "Content-Type" (.vstr "application/json")

/-- The payload branch of the normalizer (lines 293-304 and the body
selection at lines 316-318): for a JSON payload, build the new headers
object, allocate it, and point the local options copy at it; stream and
absent payloads leave everything unchanged.  Returns the heap, the
options and the request body handed to `req.end`. -/
def applyData (h : Heap) (opts : JsObj) (p : Payload) :
    Heap × JsObj × Option String :=
  match p with
  | .json s =>
      let headers2 := mkJsonHeaders h opts s
      let h2 := (h.alloc headers2).1
      let r2 := (h.alloc headers2).2
      (h2, setF opts "headers" (.vref r2), some s)
  | _ => (h, opts, none)

/-- Result of the normalization phase: the (possibly grown) heap, the
resolved protocol, the transport options, the extracted `timeout` and
`expect` values, and the request body handed to `req.end`. -/
structure NormVal where
  heap : Heap
  protocol : String
  opts : JsObj
  timeout : JsVal
  expect : JsVal
  body : Option String
deriving DecidableEq, Repr

/-- The synchronous phase of `fetch` (lines 261-318).  `Except.error`
is the synchronous `throw`: it happens before the transport is invoked,
so no callback machinery ever sees it. -/
def normalize (h : Heap) (optRef : Nat) (p : Payload) :
    Except String NormVal :=
  let options := h.getObj optRef
  match resolveProtocol options with
  | .error e => .error e
  | .ok protocol =>
      let st := stripOpts options
      let ad := applyData h st.1 p
      .ok { heap := ad.1, protocol := protocol, opts := ad.2.1
            timeout := st.2.1, expect := st.2.2, body := ad.2.2 }

/-- The headers object the normalized options point at. -/
def NormVal.headersObj (nr : NormVal) : JsObj :=
  match getF nr.opts "headers" with
  | .vref r => nr.heap.getObj r
  | _ => []

/-! ## The callback single-fire discipline

One hop owns a timer, the `callback` variable and the transport handle.
The machine below models exactly what the source does on each event:

* `timerFires` (lines 421-430): `req.abort()`, build the timeout error,
  `callback(err)`, then `callback = null` — the only place that clears
  the slot.
* `reqError` (lines 442-453): `clearTimeout`, then `if (callback)
  callback(e)` — the only place that checks the slot.
* `response p` (lines 322-419): `clearTimeout` first, then the terminal
  path `p` runs; every path except the redirect calls `callback(...)`
  unconditionally.  The transport delivers at most one response
  (`responded`).

Invoking a `null` callback raises a `TypeError` instead of calling the
caller; the machine records that as `crashed` with `fired` unchanged. -/

/-- Terminal processing path of a delivered response. -/
inductive Path where
  | statusReject
  | redirect
  | resError
  | streamHandoff
  | parseOk
  | parseFail
  | plainDone
deriving DecidableEq, Repr

/-- Events one hop can observe. -/
inductive Ev where
  | timerFires
  | reqError
  | response (p : Path)
deriving DecidableEq, Repr

/-- Hop-local state: pending timer, `callback` variable non-null,
number of callback invocations, response already delivered, and whether
a `null` callback was invoked. -/
structure HopState where
  timerArmed : Bool
  cbArmed : Bool
  fired : Nat
  responded : Bool
  crashed : Bool
deriving DecidableEq, Repr

/-- One event of the hop, exactly as handled by the source. -/
def step (s : HopState) : Ev → HopState
  | .timerFires =>
      if s.timerArmed then
        if s.cbArmed then
          { timerArmed := false, cbArmed := false, fired := s.fired + 1
            responded := s.responded, crashed := s.crashed }
        else
          { timerArmed := false, cbArmed := false, fired := s.fired
            responded := s.responded, crashed := true }
      else s
  | .reqError =>
      if s.cbArmed then
        { timerArmed := false, cbArmed := s.cbArmed, fired := s.fired + 1
          responded := s.responded, crashed := s.crashed }
      else
        { timerArmed := false, cbArmed := s.cbArmed, fired := s.fired
          responded := s.responded, crashed := s.crashed }
  | .response p =>
      if s.responded then s
      else
        let s1 : HopState :=
          { timerArmed := false, cbArmed := s.cbArmed, fired := s.fired
            responded := true, crashed := s.crashed }
        match p with
        | .redirect => s1
        | _ =>
            if s1.cbArmed then { s1 with fired := s1.fired + 1 }
            else { s1 with crashed := true }

/-- Initial hop state: slot armed, nothing fired, timer armed iff a
truthy `timeout` option was extracted. -/
def initHop (withTimer : Bool) : HopState :=
  { timerArmed := withTimer, cbArmed := true, fired := 0
    responded := false, crashed := false }

/-- Run one hop over a sequence of events. -/
def runHop (withTimer : Bool) (evs : List Ev) : HopState :=
  evs.foldl step (initHop withTimer)

/-! ## Theorems -/

/-- Helper: the scalar classifier passes exactly on equality. -/
theorem classify_scalar_pass (n s : Nat) :
    classify (some (Expectation.scalar n)) s = none ↔ s = n := by
  by_cases h : s = n <;> simp [classify, h]

/-- Helper: the array classifier passes exactly on membership. -/
theorem classify_arr_pass (l : List Nat) (s : Nat) :
    classify (some (Expectation.arr l)) s = none ↔ s ∈ l := by
  by_cases h : s ∈ l <;> simp [classify, h]

/-- Helper: the default classifier passes exactly on 2xx statuses. -/
theorem classify_none_pass (s : Nat) :
    classify (none : Option Expectation) s = none ↔ (200 ≤ s ∧ s ≤ 299) := by
  simp only [classify]
  by_cases hc : s < 200 ∨ s > 299
  · simp [hc]; omega
  · simp [hc]; omega

/-- C3: for every response status `S` and expectation `E`, the classifier
passes iff: scalar `E` demands `S = E`, array `E` demands membership, and
absent `E` demands `200 ≤ S ≤ 299`.  On mismatch it builds an `E_EXPECT`
error carrying the offending status as `statusCode` and a message with
singular phrasing (`to be 200`) or set phrasing (`to be one of [200,
201]`) together with the actual status; the response handler then fires
the callback with that error, `null` data and the response handle. -/
theorem c3_status_classifier :
    (∀ n s : Nat, classify (some (Expectation.scalar n)) s = none ↔ s = n) ∧
    (∀ (l : List Nat) (s : Nat),
      classify (some (Expectation.arr l)) s = none ↔ s ∈ l) ∧
    (∀ s : Nat, classify none s = none ↔ (200 ≤ s ∧ s ≤ 299)) ∧
    (∀ n s : Nat, s ≠ n →
      classify (some (Expectation.scalar n)) s = some
        { message := "Expected response statusCode to be " ++ toString n
            ++ ", but was " ++ toString s
          code := "E_EXPECT", statusCode := some s, cause := none }) ∧
    (∀ (l : List Nat) (s : Nat), s ∉ l →
      classify (some (Expectation.arr l)) s = some
        { message := "Expected response statusCode to be "
            ++ ("one of [" ++ String.intercalate ", " (l.map toString) ++ "]")
            ++ ", but was " ++ toString s
          code := "E_EXPECT", statusCode := some s, cause := none }) ∧
    (∀ (α : Type) (parse : String → Except String α)
        (expect : Option Expectation) (stream : Bool) (s : Nat)
        (loc ct : Option String) (body : String) (e : JErr),
      classify expect s = some e →
      handleResponse parse expect stream s loc ct body =
        RespOutcome.fail e body ∧
      cbOfOutcome (RespOutcome.fail e body : RespOutcome α) =
        some (some e, RData.null)) := by
  refine ⟨classify_scalar_pass, classify_arr_pass, classify_none_pass,
    ?_, ?_, ?_⟩
  · intro n s h
    simp [classify, h, expectError]
  · intro l s h
    simp [classify, h, expectError, joinNums]
  · intro α parse expect stream s loc ct body e h
    exact ⟨by simp [handleResponse, h], rfl⟩

/-- C3 witness at concrete inputs. -/
theorem c3_status_classifier_witness :
    classify (some (Expectation.scalar 200)) 200 = none ∧
    classify (some (Expectation.scalar 200)) 404 = some
      { message := "Expected response statusCode to be " ++ toString 200
          ++ ", but was " ++ toString 404
        code := "E_EXPECT", statusCode := some 404, cause := none } ∧
    classify (some (Expectation.arr [200, 201])) 404 = some
      { message := "Expected response statusCode to be "
          ++ ("one of [" ++ String.intercalate ", "
                ([200, 201].map toString) ++ "]")
          ++ ", but was " ++ toString 404
        code := "E_EXPECT", statusCode := some 404, cause := none } ∧
    handleResponse (fun _ => (Except.ok () : Except String Unit)) none false
        500 none none "oops" =
      RespOutcome.fail (expectError "2xx" 500) "oops" :=
  ⟨(c3_status_classifier.1 200 200).mpr rfl,
   c3_status_classifier.2.2.2.1 200 404 (by decide),
   c3_status_classifier.2.2.2.2.1 [200, 201] 404 (by decide),
   (c3_status_classifier.2.2.2.2.2 Unit (fun _ => Except.ok ()) none false
      500 none none "oops" (expectError "2xx" 500) (by decide)).1⟩

/-- C10: an empty `expect` array is truthy, so it is extracted as a
configured expectation rather than falling back to the 2xx default, and
membership in it fails for every status: the response handler rejects
any status, including 2xx, with an `E_EXPECT` error whose message names
`one of []`. -/
theorem c10_empty_expect_rejects_all :
    truthy (JsVal.varr []) = true ∧
    ∀ (α : Type) (parse : String → Except String α) (stream : Bool)
      (s : Nat) (loc ct : Option String) (body : String),
      handleResponse parse (some (Expectation.arr [])) stream s loc ct
          body =
        RespOutcome.fail
          { message := "Expected response statusCode to be one of [], but was "
              ++ toString s
            code := "E_EXPECT", statusCode := some s, cause := none }
          body := by
  refine ⟨rfl, ?_⟩
  intro α parse stream s loc ct body
  simp only [handleResponse, classify, expectError, joinNums]
  norm_num
  congr 1

/-- C2 counterexample: with the scalar expectation `302`, a passing 302
response with a `location` header takes the redirect branch, and the
expectation carried into the second hop is still the scalar `302` — not
unset as the claim states.  The pruning of lines 369-373 runs only when
the expectation is an array; a scalar survives via the key-copying loop
of lines 363-368. -/
theorem c2_scalar302_counterexample :
    handleResponse (fun _ => (Except.ok () : Except String Unit))
        (some (Expectation.scalar 302)) false 302 (some "/next") none "" =
      RespOutcome.redirect "/next" (some (Expectation.scalar 302)) ∧
    pruneExpect (some (Expectation.scalar 302)) ≠ none := by
  exact ⟨by decide, by decide⟩

/-- C2 (amended): for an array expectation, the carried-forward
expectation accepts exactly the non-302 members of the original array
(302 is removed), and a single remaining value is collapsed to a scalar;
a scalar expectation — including the scalar `302` itself — is carried
forward unchanged, and an absent expectation stays absent. -/
theorem c2_redirect_expectation_pruning :
    (∀ (l : List Nat) (s : Nat),
      classify (pruneExpect (some (Expectation.arr l))) s = none ↔
        (s ∈ l ∧ s ≠ 302)) ∧
    (∀ (l : List Nat) (x : Nat),
      l.filter (fun s => s ≠ 302) = [x] →
      pruneExpect (some (Expectation.arr l)) =
        some (Expectation.scalar x)) ∧
    (∀ n : Nat, pruneExpect (some (Expectation.scalar n)) =
      some (Expectation.scalar n)) ∧
    pruneExpect (none : Option Expectation) = none := by
  refine ⟨?_, ?_, fun n => rfl, rfl⟩
  · intro l s
    have hmem : s ∈ l.filter (fun t => t ≠ 302) ↔ (s ∈ l ∧ s ≠ 302) := by
      simp [List.mem_filter]
    by_cases hl : (l.filter (fun t => t ≠ 302)).length = 1
    · obtain ⟨x, hx⟩ := List.length_eq_one.mp hl
      have hpr : pruneExpect (some (Expectation.arr l)) =
          some (Expectation.scalar x) := by
        simp only [pruneExpect]
        rw [hx]
        simp
      rw [hpr, classify_scalar_pass]
      rw [hx] at hmem
      simpa using hmem
    · have hpr : pruneExpect (some (Expectation.arr l)) =
          some (Expectation.arr (l.filter (fun t => t ≠ 302))) := by
        simp only [pruneExpect]
        rw [if_neg hl]
      rw [hpr, classify_arr_pass]
      exact hmem
  · intro l x h
    simp only [pruneExpect]
    rw [h]
    simp

/-- C2 witness at concrete inputs. -/
theorem c2_redirect_expectation_pruning_witness :
    (classify (pruneExpect (some (Expectation.arr [200, 302]))) 200 = none ↔
      (200 ∈ [200, 302] ∧ 200 ≠ 302)) ∧
    pruneExpect (some (Expectation.arr [200, 302])) =
      some (Expectation.scalar 200) ∧
    pruneExpect (some (Expectation.scalar 302)) =
      some (Expectation.scalar 302) :=
  ⟨c2_redirect_expectation_pruning.1 [200, 302] 200,
   c2_redirect_expectation_pruning.2.1 [200, 302] 200 (by decide),
   c2_redirect_expectation_pruning.2.2.1 302⟩

/-- C8: a response with status 302, a non-empty `location` header and a
passing classification takes the redirect branch: exactly one recursive
`fetch` invocation is spawned for the resolved target, carrying the
pruned expectation and no payload, and the first hop fires no callback
(`cbOfOutcome` is `none`) — the original callback is passed through
untouched to the second hop, which owns its own fresh timer and
transport handle. -/
theorem c8_redirect_once :
    ∀ (α : Type) (parse : String → Except String α)
      (expect : Option Expectation) (stream : Bool) (l : String)
      (ct : Option String) (body : String),
      classify expect 302 = none → l ≠ "" →
      handleResponse parse expect stream 302 (some l) ct body =
        RespOutcome.redirect l (pruneExpect expect) ∧
      redirectSpawn (handleResponse parse expect stream 302 (some l) ct
          body) = some (l, pruneExpect expect) ∧
      cbOfOutcome (handleResponse parse expect stream 302 (some l) ct
          body) = none := by
  intro α parse expect stream l ct body hpass hl
  have hr : handleResponse parse expect stream 302 (some l) ct body =
      RespOutcome.redirect l (pruneExpect expect) := by
    simp [handleResponse, hpass, truthyStr, hl]
  exact ⟨hr, by rw [hr]; rfl, by rw [hr]; rfl⟩

/-- C8 witness at concrete inputs. -/
theorem c8_redirect_once_witness :
    handleResponse (fun _ => (Except.ok () : Except String Unit))
        (some (Expectation.arr [200, 302])) true 302 (some "/some/path")
        none "" = RespOutcome.redirect "/some/path"
          (pruneExpect (some (Expectation.arr [200, 302]))) := by
  exact (c8_redirect_once Unit (fun _ => Except.ok ())
    (some (Expectation.arr [200, 302])) true "/some/path" none ""
    (by decide) (by decide)).1

/-- C5: in non-stream mode, once the body is fully received: a non-empty
body whose content type (parameter suffix stripped) is
`application/json` is parsed — on success the callback gets
`(null, parsedValue, response)`, on failure an `E_JSON` error with the
raw body text (not `null`) as data; an empty body or a non-JSON content
type yields `(null, null, response)` with no error. -/
theorem c5_body_parse :
    (∀ (α : Type) (parse : String → Except String α)
        (expect : Option Expectation) (s : Nat) (loc ct : Option String)
        (body : String),
      classify expect s = none →
      ¬(s = 302 ∧ truthyStr loc = true) →
      ((∀ v, body ≠ "" → ctypeIsJson ct = true → parse body = Except.ok v →
          handleResponse parse expect false s loc ct body =
            RespOutcome.done none (RData.json v)) ∧
       (∀ m, body ≠ "" → ctypeIsJson ct = true →
          parse body = Except.error m →
          handleResponse parse expect false s loc ct body =
            RespOutcome.done
              (some { message := m, code := "E_JSON", statusCode := none
                      cause := none })
              (RData.raw body)) ∧
       (body = "" ∨ ctypeIsJson ct = false →
          handleResponse parse expect false s loc ct body =
            RespOutcome.done none RData.null))) ∧
    ctypeIsJson (some "application/json; charset=utf-8") = true ∧
    ctypeIsJson (some "application/json") = true ∧
    ctypeIsJson (some "text/html") = false ∧
    ctypeIsJson none = false := by
  refine ⟨?_, by decide, by decide, by decide, rfl⟩
  intro α parse expect s loc ct body hpass hnr
  have hbase : ∀ r : Option JErr × RData α, bodyEnd parse ct body = r →
      handleResponse parse expect false s loc ct body =
        RespOutcome.done r.1 r.2 := by
    intro r hr
    simp [handleResponse, hpass, if_neg hnr, hr]
  refine ⟨?_, ?_, ?_⟩
  · intro v hb hct hp
    exact hbase (none, RData.json v) (by simp [bodyEnd, hb, hct, hp])
  · intro m hb hct hp
    exact hbase
      (some { message := m, code := "E_JSON", statusCode := none
              cause := none }, RData.raw body)
      (by simp [bodyEnd, hb, hct, hp])
  · intro h
    refine hbase (none, RData.null) ?_
    rcases h with h | h
    · simp [bodyEnd, h]
    · simp only [bodyEnd]
      rw [if_neg]
      rintro ⟨_, hc⟩
      rw [h] at hc
      exact Bool.false_ne_true hc

/-- C5 witness at concrete inputs. -/
theorem c5_body_parse_witness :
    handleResponse (fun b => if b = "[1]" then Except.ok 1
        else (Except.error "Unexpected token" : Except String Nat))
      none false 200 none (some "application/json") "[1]" =
      RespOutcome.done none (RData.json 1) ∧
    handleResponse (fun b => if b = "[1]" then Except.ok 1
        else (Except.error "Unexpected token" : Except String Nat))
      none false 200 none (some "application/json") "<html/>" =
      RespOutcome.done
        (some { message := "Unexpected token", code := "E_JSON"
                statusCode := none, cause := none })
        (RData.raw "<html/>") ∧
    handleResponse (fun b => if b = "[1]" then Except.ok 1
        else (Except.error "Unexpected token" : Except String Nat))
      none false 200 none (some "text/html") "<html/>" =
      RespOutcome.done none RData.null :=
  ⟨((c5_body_parse.1 Nat _ none 200 none (some "application/json") "[1]"
      (by decide) (by decide)).1 1 (by decide) (by decide) rfl),
   ((c5_body_parse.1 Nat _ none 200 none (some "application/json")
      "<html/>" (by decide) (by decide)).2.1 "Unexpected token"
      (by decide) (by decide) rfl),
   ((c5_body_parse.1 Nat _ none 200 none (some "text/html") "<html/>"
      (by decide) (by decide)).2.2 (Or.inr (by decide)))⟩

/-- C4: evaluation of the transport-error path at the failing input.  A
transport `error` event builds `new Error('Request failure')` wrapping
the underlying cause, cancels the pending timer and fires the callback
with no data — but its `code` is `E_ERROR`, not `E_FAILED` as the claim
(and the repository's own test suite) states. -/
theorem c4_transport_error_code :
    (requestFailure "ouch!").code = "E_ERROR" ∧
    (requestFailure "ouch!").code ≠ "E_FAILED" ∧
    (requestFailure "ouch!").message = "Request failure" ∧
    (requestFailure "ouch!").cause = some "ouch!" ∧
    (responseFailure "boom").code = "E_ERROR" ∧
    timeoutError.code = "E_TIMEOUT" ∧
    (step (initHop true) Ev.reqError).timerArmed = false ∧
    (step (initHop true) Ev.reqError).fired = 1 := by
  decide

/-- Helper: every event handler of the source leaves the callback slot
cleared once it is cleared, and fires nothing through it: the timeout
handler would crash on a null callback, the request-error handler checks
`if (callback)`, and the response paths crash rather than fire. -/
theorem step_cb_disarmed (s : HopState) (e : Ev) (h : s.cbArmed = false) :
    (step s e).fired = s.fired ∧ (step s e).cbArmed = false := by
  cases e with
  | timerFires =>
      by_cases ht : s.timerArmed <;> simp [step, ht, h]
  | reqError => simp [step, h]
  | response p =>
      by_cases hr : s.responded
      · simp [step, hr, h]
      · cases p <;> simp [step, hr, h]

/-- Helper: iterated version of `step_cb_disarmed`. -/
theorem foldl_cb_disarmed (evs : List Ev) (s : HopState)
    (h : s.cbArmed = false) :
    (List.foldl step s evs).fired = s.fired ∧
    (List.foldl step s evs).cbArmed = false := by
  induction evs generalizing s with
  | nil => exact ⟨rfl, h⟩
  | cons e rest ih =>
      have h1 := step_cb_disarmed s e h
      have h2 := ih (step s e) h1.2
      exact ⟨h2.1.trans h1.1, h2.2⟩

/-- C1 (amended): the timeout path fires the callback once and clears
the slot; once the slot is cleared no later event fires the callback
again (in particular no later transport error or later-arriving
response); the transport-error handler is the one terminal path that
checks the slot before firing.  The response-processing terminal paths
do not check or clear the slot: with the slot still armed they fire
unconditionally and leave it armed, so a transport error arriving after
a completed response fires the callback a second time. -/
theorem c1_callback_single_fire :
    (∀ s : HopState, s.timerArmed = true → s.cbArmed = true →
      (step s Ev.timerFires).fired = s.fired + 1 ∧
      (step s Ev.timerFires).cbArmed = false) ∧
    (∀ (s : HopState) (evs : List Ev), s.cbArmed = false →
      (List.foldl step s evs).fired = s.fired) ∧
    (∀ s : HopState, s.cbArmed = false →
      (step s Ev.reqError).fired = s.fired) ∧
    (∀ (s : HopState) (p : Path), s.responded = false → s.cbArmed = true →
      p ≠ Path.redirect →
      (step s (Ev.response p)).fired = s.fired + 1 ∧
      (step s (Ev.response p)).cbArmed = true) ∧
    (∀ s : HopState, s.responded = true → s.cbArmed = true →
      (step s Ev.reqError).fired = s.fired + 1) := by
  refine ⟨?_, ?_, ?_, ?_, ?_⟩
  · intro s h1 h2
    simp [step, h1, h2]
  · intro s evs h
    exact (foldl_cb_disarmed evs s h).1
  · intro s h
    exact (step_cb_disarmed s Ev.reqError h).1
  · intro s p h1 h2 h3
    cases p <;> simp [step, h1, h2] at h3 ⊢
  · intro s h1 h2
    simp [step, h2]

/-- C1 witness at concrete inputs. -/
theorem c1_callback_single_fire_witness :
    (step (initHop true) Ev.timerFires).fired = 1 ∧
    (step (initHop true) Ev.timerFires).cbArmed = false ∧
    (List.foldl step
        { timerArmed := false, cbArmed := false, fired := 1
          responded := false, crashed := false }
        [Ev.reqError, Ev.response Path.parseOk]).fired = 1 ∧
    (step (initHop false) (Ev.response Path.parseOk)).fired = 1 ∧
    (step
        { timerArmed := false, cbArmed := true, fired := 1
          responded := true, crashed := false }
        Ev.reqError).fired = 2 :=
  ⟨(c1_callback_single_fire.1 (initHop true) rfl rfl).1,
   (c1_callback_single_fire.1 (initHop true) rfl rfl).2,
   c1_callback_single_fire.2.1
     { timerArmed := false, cbArmed := false, fired := 1
       responded := false, crashed := false }
     [Ev.reqError, Ev.response Path.parseOk] rfl,
   (c1_callback_single_fire.2.2.2.1 (initHop false) Path.parseOk rfl rfl
     (by decide)).1,
   c1_callback_single_fire.2.2.2.2
     { timerArmed := false, cbArmed := true, fired := 1
       responded := true, crashed := false } rfl rfl⟩

/-- C1 counterexample: the event sequence "response processed
successfully, then a transport `error` event" fires the callback twice.
The response paths never clear the `callback` variable, and the
request-error handler's `if (callback)` guard therefore passes a second
time — the claim's "callback is invoked exactly once for every sequence
of response, transport-error, and timeout events" is false, as is
"every terminal code path checks that the callback has not already
fired". -/
theorem c1_double_fire_counterexample :
    (runHop true [Ev.response Path.parseOk, Ev.reqError]).fired = 2 ∧
    ¬(runHop true [Ev.response Path.parseOk, Ev.reqError]).fired = 1 := by
  decide

/-! ### Object and heap lemmas for the normalizer -/

/-- Helper: deleting another key does not change a property read. -/
theorem getF_delF_ne (o : JsObj) (k k' : String) (h : k ≠ k') :
    getF (delF o k') k = getF o k := by
  induction o with
  | nil => rfl
  | cons hd tl ih =>
      obtain ⟨k0, v0⟩ := hd
      by_cases h0 : k0 = k'
      · subst h0
        have hk0 : ¬(k0 = k) := fun hh => h hh.symm
        simp only [delF, getF, eq_self_iff_true, if_true, if_neg hk0]
        exact ih
      · simp only [delF, if_neg h0, getF]
        by_cases h1 : k0 = k
        · simp [h1]
        · simp [h1, ih]

/-- Helper: a property write is read back. -/
theorem getF_setF_same (o : JsObj) (k : String) (v : JsVal) :
    getF (setF o k v) k = v := by
  induction o with
  | nil => simp [setF, getF]
  | cons hd tl ih =>
      obtain ⟨k0, v0⟩ := hd
      by_cases h0 : k0 = k <;> simp [setF, getF, h0, ih]

/-- Helper: writing another key does not change a property read. -/
theorem getF_setF_ne (o : JsObj) (k k' : String) (v : JsVal)
    (h : k ≠ k') : getF (setF o k' v) k = getF o k := by
  induction o with
  | nil => simp [setF, getF, Ne.symm h]
  | cons hd tl ih =>
      obtain ⟨k0, v0⟩ := hd
      by_cases h0 : k0 = k'
      · subst h0
        have hk0 : ¬(k0 = k) := fun hh => h hh.symm
        simp only [setF, getF, eq_self_iff_true, if_true, if_neg hk0]
      · simp only [setF, if_neg h0, getF]
        by_cases h1 : k0 = k
        · simp [h1]
        · simp [h1, ih]

/-- Helper: extracting another option does not change a property read. -/
theorem getF_extractOpt_ne (o : JsObj) (k k' : String) (h : k ≠ k') :
    getF (extractOpt o k').1 k = getF o k := by
  by_cases ht : truthy (getF o k') <;>
    simp [extractOpt, ht, getF_delF_ne o k k' h]

/-- Helper: the stripped options keep the caller's `headers` value. -/
theorem getF_stripOpts_headers (o : JsObj) :
    getF (stripOpts o).1 "headers" = getF o "headers" := by
  simp only [stripOpts]
  rw [getF_extractOpt_ne _ _ _ (by decide),
    getF_extractOpt_ne _ _ _ (by decide),
    getF_extractOpt_ne _ _ _ (by decide),
    getF_delF_ne _ _ _ (by decide)]
  rfl

/-- Helper: `applyData` only ever appends to the heap. -/
theorem applyData_heap_extends (h : Heap) (opts : JsObj) (p : Payload) :
    ∃ ext : Heap, (applyData h opts p).1 = h ++ ext := by
  cases p with
  | noBody => exact ⟨[], by simp [applyData]⟩
  | stream => exact ⟨[], by simp [applyData]⟩
  | json s => exact ⟨_, rfl⟩

/-- C6: the normalizer never mutates the caller's options object or its
nested headers object: every object the caller holds a reference to
reads back unchanged from the heap after normalization.  The source
works on `copy(options)` (line 272) and, when augmenting headers, on
`copy(opts.headers)` (line 296); the heap is only ever extended by the
allocation of the fresh headers object. -/
theorem c6_options_not_mutated :
    ∀ (h : Heap) (optRef : Nat) (p : Payload) (nr : NormVal),
      normalize h optRef p = Except.ok nr →
      ∀ i : Nat, i < h.length → nr.heap[i]? = h[i]? := by
  intro h optRef p nr hok i hi
  simp only [normalize] at hok
  split at hok
  · exact absurd hok (by simp)
  · simp only [Except.ok.injEq] at hok
    obtain ⟨ext, hext⟩ :=
      applyData_heap_extends h (stripOpts (Heap.getObj h optRef)).1 p
    rw [← hok]
    show ((applyData h (stripOpts (Heap.getObj h optRef)).1 p).1)[i]? =
      h[i]?
    rw [hext]
    exact List.getElem?_append_left hi

/-! ### Observations on the normalization result.

These projections let the claims speak about the computed request
without existential quantification over the result record. -/

/-- The resolved protocol, when normalization does not throw. -/
def normProto (e : Except String NormVal) : Option String :=
  match e with
  | .ok nr => some nr.protocol
  | .error _ => none

/-- The request body, when normalization does not throw. -/
def normBody (e : Except String NormVal) : Option (Option String) :=
  match e with
  | .ok nr => some nr.body
  | .error _ => none

/-- The `Content-Length` header of the normalized request. -/
def normCL (e : Except String NormVal) : Option JsVal :=
  match e with
  | .ok nr => some (getF nr.headersObj "Content-Length")
  | .error _ => none

/-- The `Content-Type` header of the normalized request. -/
def normCT (e : Except String NormVal) : Option JsVal :=
  match e with
  | .ok nr => some (getF nr.headersObj "Content-Type")
  | .error _ => none

/-- Helper: a failing protocol resolution short-circuits `normalize`. -/
theorem normalize_error (h : Heap) (optRef : Nat) (p : Payload)
    (msg : String)
    (hres : resolveProtocol (Heap.getObj h optRef) = Except.error msg) :
    normalize h optRef p = Except.error msg := by
  simp only [normalize]
  rw [hres]

/-- Helper: the shape of a successful normalization of a JSON payload. -/
theorem normalize_json (h : Heap) (optRef : Nat) (s : String)
    (proto : String)
    (hpr : resolveProtocol (Heap.getObj h optRef) = Except.ok proto) :
    normalize h optRef (Payload.json s) =
      Except.ok
        { heap := h ++
            [mkJsonHeaders h (stripOpts (Heap.getObj h optRef)).1 s]
          protocol := proto
          opts := setF (stripOpts (Heap.getObj h optRef)).1 "headers"
            (JsVal.vref h.length)
          timeout := (stripOpts (Heap.getObj h optRef)).2.1
          expect := (stripOpts (Heap.getObj h optRef)).2.2
          body := some s } := by
  simp only [normalize]
  rw [hpr]
  rfl

/-- Helper: the resolved protocol of any successful normalization. -/
theorem normProto_normalize (h : Heap) (optRef : Nat) (p : Payload)
    (proto : String)
    (hpr : resolveProtocol (Heap.getObj h optRef) = Except.ok proto) :
    normProto (normalize h optRef p) = some proto := by
  cases p <;> (simp only [normalize]; rw [hpr]; rfl)

/-- Helper: the headers built for a JSON payload when the caller
supplied no headers object. -/
theorem mkJsonHeaders_absent (h : Heap) (opts : JsObj) (s : String)
    (hh : getF opts "headers" = JsVal.vundef) :
    mkJsonHeaders h opts s =
      [("Content-Length", JsVal.vnum s.utf8ByteSize),
       ("Content-Type", JsVal.vstr "application/json")] := by
  simp [mkJsonHeaders, hh, getF, setF, truthy]

/-- Helper: the headers built for a JSON payload when the caller's
headers object carries a non-empty `Content-Type`. -/
theorem mkJsonHeaders_with_ct (h : Heap) (opts : JsObj) (s : String)
    (r : Nat) (ct : String)
    (hh : getF opts "headers" = JsVal.vref r)
    (hct : getF (Heap.getObj h r) "Content-Type" = JsVal.vstr ct)
    (hne : ct ≠ "") :
    mkJsonHeaders h opts s =
      setF (Heap.getObj h r) "Content-Length"
        (JsVal.vnum s.utf8ByteSize) := by
  have hct1 : getF (setF (Heap.getObj h r) "Content-Length"
      (JsVal.vnum s.utf8ByteSize)) "Content-Type" = JsVal.vstr ct := by
    rw [getF_setF_ne _ _ _ _ (by decide)]
    exact hct
  simp [mkJsonHeaders, hh, jsCopy, hct1, truthy, hne]

/-- Helper: the headers object of a normalized JSON-payload request is
the freshly allocated `mkJsonHeaders` object. -/
theorem headersObj_normalize_json (h : Heap) (optRef : Nat) (s : String)
    (proto : String)
    (hpr : resolveProtocol (Heap.getObj h optRef) = Except.ok proto) :
    normCL (normalize h optRef (Payload.json s)) =
      some (getF (mkJsonHeaders h (stripOpts (Heap.getObj h optRef)).1 s)
        "Content-Length") ∧
    normCT (normalize h optRef (Payload.json s)) =
      some (getF (mkJsonHeaders h (stripOpts (Heap.getObj h optRef)).1 s)
        "Content-Type") := by
  rw [normalize_json h optRef s proto hpr]
  have hobj : NormVal.headersObj
      { heap := h ++
          [mkJsonHeaders h (stripOpts (Heap.getObj h optRef)).1 s]
        protocol := proto
        opts := setF (stripOpts (Heap.getObj h optRef)).1 "headers"
          (JsVal.vref h.length)
        timeout := (stripOpts (Heap.getObj h optRef)).2.1
        expect := (stripOpts (Heap.getObj h optRef)).2.2
        body := some s } =
      mkJsonHeaders h (stripOpts (Heap.getObj h optRef)).1 s := by
    simp only [NormVal.headersObj, getF_setF_same, Heap.getObj,
      List.getElem?_concat_length, Option.getD_some]
  exact ⟨by simp only [normCL, hobj], by simp only [normCT, hobj]⟩

/-- C7: for every JSON payload (given by its encoded string `s`), the
request body is exactly `s`, `Content-Length` is always set to the byte
length of `s` — regardless of any pre-existing `Content-Length` in the
caller's headers — and `Content-Type` is set to `application/json` only
when the caller supplied no (truthy) `Content-Type` header: a supplied
non-empty `Content-Type` is preserved. -/
theorem c7_json_payload_headers :
    (∀ (h : Heap) (optRef : Nat) (s : String) (proto : String),
      resolveProtocol (Heap.getObj h optRef) = Except.ok proto →
      getF (Heap.getObj h optRef) "headers" = JsVal.vundef →
      normBody (normalize h optRef (Payload.json s)) = some (some s) ∧
      normCL (normalize h optRef (Payload.json s)) =
        some (JsVal.vnum s.utf8ByteSize) ∧
      normCT (normalize h optRef (Payload.json s)) =
        some (JsVal.vstr "application/json")) ∧
    (∀ (h : Heap) (optRef : Nat) (s : String) (proto : String) (r : Nat)
        (ct : String),
      resolveProtocol (Heap.getObj h optRef) = Except.ok proto →
      getF (Heap.getObj h optRef) "headers" = JsVal.vref r →
      getF (Heap.getObj h r) "Content-Type" = JsVal.vstr ct →
      ct ≠ "" →
      normBody (normalize h optRef (Payload.json s)) = some (some s) ∧
      normCL (normalize h optRef (Payload.json s)) =
        some (JsVal.vnum s.utf8ByteSize) ∧
      normCT (normalize h optRef (Payload.json s)) =
        some (JsVal.vstr ct)) := by
  constructor
  · intro h optRef s proto hpr hh
    have hsh : getF (stripOpts (Heap.getObj h optRef)).1 "headers" =
        JsVal.vundef := by
      rw [getF_stripOpts_headers]; exact hh
    have hmk := mkJsonHeaders_absent h (stripOpts (Heap.getObj h optRef)).1
      s hsh
    obtain ⟨hcl, hct⟩ := headersObj_normalize_json h optRef s proto hpr
    refine ⟨?_, ?_, ?_⟩
    · rw [normalize_json h optRef s proto hpr]
      rfl
    · rw [hcl, hmk]
      rfl
    · rw [hct, hmk]
      rfl
  · intro h optRef s proto r ct hpr hh hct hne
    have hsh : getF (stripOpts (Heap.getObj h optRef)).1 "headers" =
        JsVal.vref r := by
      rw [getF_stripOpts_headers]; exact hh
    have hmk := mkJsonHeaders_with_ct h
      (stripOpts (Heap.getObj h optRef)).1 s r ct hsh hct hne
    obtain ⟨hclx, hctx⟩ := headersObj_normalize_json h optRef s proto hpr
    refine ⟨?_, ?_, ?_⟩
    · rw [normalize_json h optRef s proto hpr]
      rfl
    · rw [hclx, hmk, getF_setF_same]
    · rw [hctx, hmk, getF_setF_ne _ _ _ _ (by decide), hct]

/-- C9: an explicit string protocol other than `http:` and `https:`
makes `fetch` throw synchronously — `normalize` returns `Except.error`,
which aborts the call before the transport, the timer or any callback
machinery is reached, so the configuration error is never delivered
through the callback; an absent protocol defaults to `https:`. -/
theorem c9_protocol_validation :
    (∀ (h : Heap) (optRef : Nat) (p : Payload) (ps : String),
      getF (Heap.getObj h optRef) "protocol" = JsVal.vstr ps →
      ps ≠ "" → ps ≠ "http:" → ps ≠ "https:" →
      normalize h optRef p =
        Except.error ("Unsupported protocol \"" ++ ps ++ "\"")) ∧
    (∀ (h : Heap) (optRef : Nat) (p : Payload),
      getF (Heap.getObj h optRef) "protocol" = JsVal.vundef →
      normProto (normalize h optRef p) = some "https:") := by
  constructor
  · intro h optRef p ps hp h1 h2 h3
    have hres : resolveProtocol (Heap.getObj h optRef) =
        Except.error ("Unsupported protocol \"" ++ ps ++ "\"") := by
      simp [resolveProtocol, hp, h1, h2, h3]
    exact normalize_error h optRef p _ hres
  · intro h optRef p hp
    have hres : resolveProtocol (Heap.getObj h optRef) =
        Except.ok "https:" := by
      simp [resolveProtocol, hp, truthy]
    exact normProto_normalize h optRef p _ hres

/-! ### Concrete normalizer inputs for the witnesses -/

/-- A caller heap: an options object referencing a headers object that
already carries a `Content-Type`. -/
def H0 : Heap :=
  [[("hostname", JsVal.vstr "that-host.com"), ("headers", JsVal.vref 1),
    ("timeout", JsVal.vnum 5000)],
   [("Content-Type", JsVal.vstr "text/plain")]]

/-- The normalization of `H0` with the JSON payload `[1,2]`. -/
def NR0 : NormVal :=
  { heap :=
      [[("hostname", JsVal.vstr "that-host.com"),
        ("headers", JsVal.vref 1), ("timeout", JsVal.vnum 5000)],
       [("Content-Type", JsVal.vstr "text/plain")],
       [("Content-Type", JsVal.vstr "text/plain"),
        ("Content-Length", JsVal.vnum 5)]]
    protocol := "https:"
    opts := [("hostname", JsVal.vstr "that-host.com"),
      ("headers", JsVal.vref 2)]
    timeout := JsVal.vnum 5000
    expect := JsVal.vundef
    body := some "[1,2]" }

/-- A caller heap whose options object has no headers. -/
def H1 : Heap := [[("hostname", JsVal.vstr "that-host.com")]]

/-- A caller heap whose options object carries an unsupported
protocol. -/
def H2 : Heap := [[("protocol", JsVal.vstr "ftp:")]]

/-- C6 witness at concrete inputs: the caller's options object and its
headers object read back unchanged after a JSON-payload call. -/
theorem c6_options_not_mutated_witness :
    NR0.heap[0]? = H0[0]? ∧ NR0.heap[1]? = H0[1]? :=
  ⟨c6_options_not_mutated H0 0 (Payload.json "[1,2]") NR0 rfl 0
      (by decide),
   c6_options_not_mutated H0 0 (Payload.json "[1,2]") NR0 rfl 1
      (by decide)⟩

/-- C7 witness at concrete inputs. -/
theorem c7_json_payload_headers_witness :
    (normBody (normalize H1 0 (Payload.json "[1,2]")) =
        some (some "[1,2]") ∧
      normCL (normalize H1 0 (Payload.json "[1,2]")) =
        some (JsVal.vnum "[1,2]".utf8ByteSize) ∧
      normCT (normalize H1 0 (Payload.json "[1,2]")) =
        some (JsVal.vstr "application/json")) ∧
    (normBody (normalize H0 0 (Payload.json "[1,2]")) =
        some (some "[1,2]") ∧
      normCL (normalize H0 0 (Payload.json "[1,2]")) =
        some (JsVal.vnum "[1,2]".utf8ByteSize) ∧
      normCT (normalize H0 0 (Payload.json "[1,2]")) =
        some (JsVal.vstr "text/plain")) :=
  ⟨c7_json_payload_headers.1 H1 0 "[1,2]" "https:" rfl (by decide),
   c7_json_payload_headers.2 H0 0 "[1,2]" "https:" 1 "text/plain"
      rfl (by decide) (by decide) (by decide)⟩

/-- C9 witness at concrete inputs. -/
theorem c9_protocol_validation_witness :
    normalize H2 0 Payload.noBody =
      Except.error ("Unsupported protocol \"" ++ "ftp:" ++ "\"") ∧
    normProto (normalize H1 0 Payload.noBody) = some "https:" :=
  ⟨c9_protocol_validation.1 H2 0 Payload.noBody "ftp:" (by decide)
      (by decide) (by decide) (by decide),
   c9_protocol_validation.2 H1 0 Payload.noBody (by decide)⟩

end StudioJsonRequest
